import Mathlib

/-!
Verification development for the helium-itm-classifier repository.

Shallow embedding of the Link Residual Classification Engine:
`src/modules/itm_classifier.py` (`_validate_model_parameters`,
`compute_residuals`), the batch selector of
`src/modules/classifier_worker.py` (`worker`), and the Fresnel-zone
geometry of `src/modules/report_card.py` (`generate_pdf_report`).

Numeric values are embedded as exact rationals (`ℚ`); the code's
floating-point arithmetic is idealised to exact arithmetic.  External
collaborators (ArangoDB rows, the h3 grid ring, the terrain tiles and the
ITM model) are modelled as oracle data carried by each row: the h3 ring
cell centers become `Row.beaconerRing` / `Row.witnessRing`, the terrain
profile becomes `Row.profileDistances` (`none` models a failed profile),
and the ITM loss becomes `Row.itmLoss` (`none` models the model raising
`ValueError`; the `compute_loss_profile` branch of the code only chooses
which external call produces this scalar, so both branches are covered by
the single oracle field).  Ground elevation lookup (`tiles.elevation`)
is an explicit function argument.
-/

set_option maxHeartbeats 1000000

namespace HeliumItm

/-- One asserted beaconer→witness pair, the `asserted_pair` document of a
row returned by `_fetch_edge_data`.  Gains are stored in tenths of dB,
the signal histogram maps tenths-of-dBm bins to occurrence counts
(association list, insertion order of the Python dict). -/
structure AssertedPair where
  beaconerElevation : ℚ
  witnessElevation : ℚ
  beaconerGeoLoc : ℚ × ℚ
  witnessGeoLoc : ℚ × ℚ
  beaconerFreq : ℚ
  beaconerGain : ℚ
  witnessGain : ℚ
  beaconerTxPower : ℚ
  signalHist : List (Int × Int)

/-- A 3D point as passed to the propagation library: latitude, longitude,
antenna height (`Point(lat, lon, alt)` in the code). -/
structure RefPoint where
  lat : ℚ
  lon : ℚ
  alt : ℚ
deriving DecidableEq

/-- One row of `_fetch_edge_data` output together with the oracle data of
the external collaborators used while evaluating that row. -/
structure Row where
  beaconer : String
  witness : String
  assertedPair : Option AssertedPair
  beaconerRing : List (ℚ × ℚ)
  witnessRing : List (ℚ × ℚ)
  profileDistances : Option (List ℚ)
  itmLoss : Option ℚ

/-- The classification parameters of `compute_residuals`. -/
structure Params where
  minSamples : Int
  minDistanceKm : ℚ
  thresholdDb : ℚ

/-- The result dictionary appended for an edge-flagged link
(`compute_residuals`, the `results.append` call).  `stdDevSq` holds the
variance; the code stores its square root (`std_dev`), kept squared here
to remain rational.  The `itm_loss_profile` and
`terrain_profile_elevations` fields are report-only payload and are not
carried. -/
structure ClassificationResult where
  beaconerPubkey : String
  witnessPubkey : String
  transmitPowerDBm : ℚ
  frequencyHz : ℚ
  measuredRssi : ℚ
  measuredLoss : ℚ
  samples : Int
  stdDevSq : ℚ
  itmLoss : ℚ
  residual : ℚ
  distanceKm : ℚ
  terrainDistances : List ℚ
  txAntennaHeightM : ℚ
  rxAntennaHeightM : ℚ
  txAntennaGainDB : ℚ
  rxAntennaGainDB : ℚ
  edgeFlag : Bool
deriving DecidableEq

/-- The distinct failure branches of `_validate_model_parameters`, in the
order the code checks them. -/
inductive ValidationError where
  | badLat
  | badLon
  | badHeight
  | noProfile
  | shortProfile
  | badFreq
  | emptyHist
deriving DecidableEq

/-- Outcome of evaluating one row of the `compute_residuals` loop:
`skip` models every `continue` (and the fall-through of a non-edge link,
which appends nothing), `abort` models an uncaught exception escaping the
loop, `ok r` models `results.append(r)`. -/
inductive RowOutcome where
  | skip
  | abort
  | ok (r : ClassificationResult)
deriving DecidableEq

/-- Python `str.strip(chars)` on a character list: remove the longest
leading and trailing runs of characters belonging to `bad`. -/
def pyStrip (bad : List Char) (l : List Char) : List Char :=
  ((l.dropWhile (fun c => bad.contains c)).reverse.dropWhile
    (fun c => bad.contains c)).reverse

/-- Python `s.strip(bad)` on strings. -/
def pyStripStr (bad s : String) : String :=
  String.mk (pyStrip bad.toList s.toList)

/-- The literal argument of the `.strip("hotspots/")` calls. -/
def stripChars : String := "hotspots/"

/-- The identifier the code reports for a hotspot whose database document
id is `"hotspots/" ++ pk` (`row["beaconer"].strip("hotspots/")`). -/
def reportedId (pk : String) : String :=
  pyStripStr stripChars (String.append "hotspots/" pk)

/-- Histogram bins in dBm: keys are stored in tenths of dBm and divided
by 10 (`bins = np.array([k / 10.0 for k in signal_hist.keys()])`). -/
def histBins (hist : List (Int × Int)) : List ℚ :=
  hist.map (fun kv => (kv.1 : ℚ) / 10)

/-- Histogram counts as rationals (`counts = np.array(list(signal_hist.values()))`). -/
def histCounts (hist : List (Int × Int)) : List ℚ :=
  hist.map (fun kv => (kv.2 : ℚ))

/-- Total histogram weight, `sum(counts)` (an integer in the code). -/
def totalWeight (hist : List (Int × Int)) : Int :=
  (hist.map (fun kv => kv.2)).sum

/-- Weighted mean `np.average(bins, weights=counts)`: count-weighted mean. -/
def rssiMean (hist : List (Int × Int)) : ℚ :=
  (List.zipWith (fun b c => b * c) (histBins hist) (histCounts hist)).sum
    / (histCounts hist).sum

/-- Weighted variance `np.average((bins - rssi_mean) ** 2, weights=counts)`: count-weighted
variance about `rssiMean`. -/
def rssiVariance (hist : List (Int × Int)) : ℚ :=
  (List.zipWith (fun b c => c * (b - rssiMean hist) ^ 2)
    (histBins hist) (histCounts hist)).sum / (histCounts hist).sum

/-- The frequency rejection test of `_validate_model_parameters`:
`freq_hz >= 1000e6 or freq_hz <= 400e6`. -/
def freqOutOfRange (freqHz : ℚ) : Prop :=
  freqHz ≥ 1000e6 ∨ freqHz ≤ 400e6

instance (freqHz : ℚ) : Decidable (freqOutOfRange freqHz) := by
  unfold freqOutOfRange; infer_instance

/-- Embedding of `_validate_model_parameters`, returning the first failing check as a
tagged error (`some`), or `none` when every check passes. -/
def validateModelParameters (txLoc rxLoc : RefPoint)
    (profile : Option (List ℚ)) (freqHz : ℚ)
    (signalHist : List (Int × Int)) : Option ValidationError :=
  if ¬(-90 ≤ txLoc.lat ∧ txLoc.lat ≤ 90) then some .badLat
  else if ¬(-180 ≤ txLoc.lon ∧ txLoc.lon ≤ 180) then some .badLon
  else if txLoc.alt < 0 ∨ txLoc.alt > 50 then some .badHeight
  else if ¬(-90 ≤ rxLoc.lat ∧ rxLoc.lat ≤ 90) then some .badLat
  else if ¬(-180 ≤ rxLoc.lon ∧ rxLoc.lon ≤ 180) then some .badLon
  else if rxLoc.alt < 0 ∨ rxLoc.alt > 50 then some .badHeight
  else if profile.isNone then some .noProfile
  else if (profile.getD []).length < 2 then some .shortProfile
  else if freqOutOfRange freqHz then some .badFreq
  else if signalHist.length = 0 then some .emptyHist
  else none

/-- The antenna-height clamp applied before refinement:
`min(max(elevation, 1.0), 50.0)`. -/
def clampHeight (e : ℚ) : ℚ :=
  min (max e 1) 50

/-- Python `max(xs, key=f)`: first maximal element of a nonempty list,
`none` on the empty list (where CPython raises `ValueError`). -/
def pyMaxBy {α : Type} (f : α → ℚ) : List α → Option α
  | [] => none
  | x :: xs => some (xs.foldl (fun cur y => if f cur < f y then y else cur) x)

/-- The candidate neighborhood built from the h3 ring cell centers, each
carrying the clamped antenna height
(`[Point(*coords, height) for coords in ...grid_ring(...)]`). -/
def mkNeighborhood (ring : List (ℚ × ℚ)) (height : ℚ) : List RefPoint :=
  ring.map (fun coords => ⟨coords.1, coords.2, height⟩)

/-- Measured loss `measured_loss = -1.0 * (rssi_mean - beaconer_gain/10.0 -
beaconer_tx_power - witness_gain/10.0)`. -/
def measuredLoss (m beaconerGain beaconerTxPower witnessGain : ℚ) : ℚ :=
  -1 * (m - beaconerGain / 10 - beaconerTxPower - witnessGain / 10)

/-- Residual `residual = measured_loss - itm_loss`. -/
def residual (ml itmLoss : ℚ) : ℚ :=
  ml - itmLoss

/-- One iteration of the `compute_residuals` row loop.  `elev` models
`tiles.elevation` (a function of the candidate's latitude/longitude; the
clamped height is constant across a neighborhood). -/
def processRow (elev : ℚ × ℚ → ℚ) (p : Params) (row : Row) : RowOutcome :=
  let beaconerPubkey := pyStripStr stripChars row.beaconer
  let witnessPubkey := pyStripStr stripChars row.witness
  match row.assertedPair with
  | none => RowOutcome.skip
  | some pair =>
    let beaconerAntennaHeight := clampHeight pair.beaconerElevation
    let witnessAntennaHeight := clampHeight pair.witnessElevation
    let beaconerNeighborhood := mkNeighborhood row.beaconerRing beaconerAntennaHeight
    let witnessNeighborhood := mkNeighborhood row.witnessRing witnessAntennaHeight
    match pyMaxBy (fun q => elev (q.lat, q.lon)) beaconerNeighborhood,
          pyMaxBy (fun q => elev (q.lat, q.lon)) witnessNeighborhood with
    | some txLoc, some rxLoc =>
      let freqHz := pair.beaconerFreq
      let signalHist := pair.signalHist
      match validateModelParameters txLoc rxLoc row.profileDistances freqHz signalHist with
      | some _ => RowOutcome.skip
      | none =>
        if totalWeight signalHist = 0 then RowOutcome.skip
        else
          match row.itmLoss with
          | none => RowOutcome.skip
          | some itmLossVal =>
            let ds := row.profileDistances.getD []
            let ml := measuredLoss (rssiMean signalHist) pair.beaconerGain
              pair.beaconerTxPower pair.witnessGain
            let res := residual ml itmLossVal
            let distanceKm := ds.getLast?.getD 0 / 1000
            if totalWeight signalHist ≥ p.minSamples ∧ res < p.thresholdDb ∧
                distanceKm > p.minDistanceKm then
              RowOutcome.ok
                { beaconerPubkey := beaconerPubkey
                  witnessPubkey := witnessPubkey
                  transmitPowerDBm := pair.beaconerTxPower
                  frequencyHz := freqHz
                  measuredRssi := rssiMean signalHist
                  measuredLoss := ml
                  samples := totalWeight signalHist
                  stdDevSq := rssiVariance signalHist
                  itmLoss := itmLossVal
                  residual := res
                  distanceKm := distanceKm
                  terrainDistances := ds
                  txAntennaHeightM := txLoc.alt
                  rxAntennaHeightM := rxLoc.alt
                  txAntennaGainDB := pair.beaconerGain / 10
                  rxAntennaGainDB := pair.witnessGain / 10
                  edgeFlag := true }
            else RowOutcome.skip
    | _, _ => RowOutcome.abort

/-- The `compute_residuals` batch loop: rows in order, `skip` continues,
`ok` appends, `abort` (an uncaught exception) destroys the whole batch
(`none`: `compute_residuals` never returns). -/
def computeResiduals (elev : ℚ × ℚ → ℚ) (p : Params) :
    List Row → Option (List ClassificationResult)
  | [] => some []
  | row :: rest =>
    match processRow elev p row with
    | RowOutcome.abort => none
    | RowOutcome.skip => computeResiduals elev p rest
    | RowOutcome.ok r => (computeResiduals elev p rest).map (fun rs => r :: rs)

/-- Ascending residual order used by `.sort("residual")`. -/
def residualLE (a b : ClassificationResult) : Prop :=
  a.residual ≤ b.residual

instance : DecidableRel residualLE := fun a b => by
  unfold residualLE; infer_instance

instance : IsTotal ClassificationResult residualLE :=
  ⟨fun a b => le_total a.residual b.residual⟩

instance : IsTrans ClassificationResult residualLE :=
  ⟨fun _ _ _ hab hbc => le_trans hab hbc⟩

/-- The batch selector of `classifier_worker.worker`:
`df.filter(edge_flag).sort("residual").group_by("witness_pubkey").first()`,
viewed per witness: among edge-flagged results, sort by residual
ascending and take the first row carrying the given witness. -/
def worstEdgeFor (results : List ClassificationResult) (w : String) :
    Option ClassificationResult :=
  (List.insertionSort residualLE (results.filter (fun r => r.edgeFlag))).find?
    (fun r => r.witnessPubkey == w)

/-- The square of the Fresnel-zone radius of `generate_pdf_report` at
sample distance `d1`, with `D` the last profile distance:
`fresnel_radius = np.sqrt((wavelength * d1 * d2) / D)` with
`d2 = D - d1` and `wavelength = 2.998e8 / frequency_hz`.  Kept squared to
remain rational; the radius itself is its real square root. -/
def fresnelRadiusSq (freqHz D d1 : ℚ) : ℚ :=
  let c : ℚ := 2.998e8
  let wavelength := c / freqHz
  wavelength * d1 * (D - d1) / D

/-- Flat terrain oracle used by the concrete examples. -/
def exElev : ℚ × ℚ → ℚ := fun _ => 0

/-- Concrete signal histogram: 20 samples at −85.0 dBm. -/
def exHist : List (Int × Int) := [(-850, 20)]

/-- Concrete asserted pair used by the witnesses. -/
def exPair : AssertedPair :=
  { beaconerElevation := 30
    witnessElevation := 1/2
    beaconerGeoLoc := (-75, 45)
    witnessGeoLoc := (-74, 46)
    beaconerFreq := 900000000
    beaconerGain := 58
    witnessGain := 12
    beaconerTxPower := 27
    signalHist := exHist }

/-- Concrete row whose evaluation passes every stage and is edge-flagged. -/
def exRow : Row :=
  { beaconer := "hotspots/abc123"
    witness := "hotspots/xyz789"
    assertedPair := some exPair
    beaconerRing := [(45, -75), (44, -76)]
    witnessRing := [(46, -74)]
    profileDistances := some [0, 2500, 5000]
    itmLoss := some 200 }

/-- Concrete parameters (the defaults of `compute_residuals`, with
`min_samples = 10`, `min_distance_km = 3`, `threshold_db = −15`). -/
def exParams : Params :=
  { minSamples := 10
    minDistanceKm := 3
    thresholdDb := -15 }

/-- The refined transmitter location `processRow` picks for `exRow`. -/
def exTxLoc : RefPoint := ⟨45, -75, 30⟩

/-- The refined receiver location `processRow` picks for `exRow`. -/
def exRxLoc : RefPoint := ⟨46, -74, 1⟩

/-- The classification record `processRow` produces for `exRow`. -/
def exResult : ClassificationResult :=
  { beaconerPubkey := "abc123"
    witnessPubkey := "xyz789"
    transmitPowerDBm := 27
    frequencyHz := 900000000
    measuredRssi := -85
    measuredLoss := 119
    samples := 20
    stdDevSq := 0
    itmLoss := 200
    residual := -81
    distanceKm := 5
    terrainDistances := [0, 2500, 5000]
    txAntennaHeightM := 30
    rxAntennaHeightM := 1
    txAntennaGainDB := 29/5
    rxAntennaGainDB := 6/5
    edgeFlag := true }

/-- Variant of `exRow` with an empty candidate ring for the beaconer: the `max()`
call of the code raises an uncaught `ValueError` here. -/
def exEmptyRingRow : Row :=
  { exRow with beaconerRing := [] }

/-- Variant of `exPair` with an empty signal histogram. -/
def exPairEmptyHist : AssertedPair :=
  { exPair with signalHist := [] }

/-- Variant of `exRow` with an empty signal histogram. -/
def exEmptyHistRow : Row :=
  { exRow with assertedPair := some exPairEmptyHist }

/-- Two edge-flagged results for one witness, residuals −20 and −25. -/
def exResA : ClassificationResult :=
  { exResult with residual := -20, witnessPubkey := "w1", beaconerPubkey := "b1" }

/-- See `exResA`: the stronger anomaly, residual −25. -/
def exResB : ClassificationResult :=
  { exResult with residual := -25, witnessPubkey := "w1", beaconerPubkey := "b2" }

/-- An empty signal histogram never passes `_validate_model_parameters`. -/
theorem validate_nil_hist_ne_none (txLoc rxLoc : RefPoint) (prof : Option (List ℚ))
    (f : ℚ) : validateModelParameters txLoc rxLoc prof f [] ≠ none := by
  intro h
  unfold validateModelParameters at h
  split_ifs at h <;> simp_all

/-- C5: frequency validation accepts a carrier frequency iff it lies
strictly between 400 MHz and 1000 MHz (open interval at both ends); an
out-of-range frequency always makes `_validate_model_parameters` report
an error, and the boundary probes 399e6 and 1000e6 are rejected while
401e6 and 999e6 are accepted. -/
theorem c5_frequency_open_interval (f : ℚ) :
    (¬ freqOutOfRange f ↔ (400e6 < f ∧ f < 1000e6)) ∧
    (freqOutOfRange f → ∀ (txLoc rxLoc : RefPoint) (prof : Option (List ℚ))
      (hist : List (Int × Int)),
      validateModelParameters txLoc rxLoc prof f hist ≠ none) ∧
    (freqOutOfRange 399e6 ∧ freqOutOfRange 1000e6 ∧
      ¬ freqOutOfRange 401e6 ∧ ¬ freqOutOfRange 999e6) := by
  refine ⟨?_, ?_, by norm_num [freqOutOfRange]⟩
  · unfold freqOutOfRange
    constructor
    · intro h
      push_neg at h
      exact ⟨h.2, h.1⟩
    · intro h
      push_neg
      exact ⟨h.2, h.1⟩
  · intro h txLoc rxLoc prof hist hcontra
    unfold validateModelParameters at hcontra
    split_ifs at hcontra <;> simp_all

theorem c5_witness :
    validateModelParameters ⟨45, -75, 30⟩ ⟨46, -74, 1⟩ (some [0, 2500, 5000])
      399e6 [(-850, 20)] ≠ none :=
  (c5_frequency_open_interval 399e6).2.1 (by norm_num [freqOutOfRange])
    ⟨45, -75, 30⟩ ⟨46, -74, 1⟩ (some [0, 2500, 5000]) [(-850, 20)]

/-- C7: the Fresnel-zone radius at sample distance `d1` is
`sqrt(wavelength * d1 * (D - d1) / D)` with `wavelength = 2.998e8 / freqHz`,
and it is exactly 0 at the first (`d1 = 0`) and last (`d1 = D`) profile
samples regardless of wavelength, so the upper and lower bounds
(`line ± radius`) coincide with the line-of-sight line there. -/
theorem c7_fresnel_radius (freqHz D d1 : ℚ) :
    fresnelRadiusSq freqHz D d1 = (2.998e8 / freqHz) * d1 * (D - d1) / D ∧
    Real.sqrt ((fresnelRadiusSq freqHz D 0 : ℚ) : ℝ) = 0 ∧
    Real.sqrt ((fresnelRadiusSq freqHz D D : ℚ) : ℝ) = 0 ∧
    (∀ line : ℝ,
      line + Real.sqrt ((fresnelRadiusSq freqHz D 0 : ℚ) : ℝ) = line ∧
      line - Real.sqrt ((fresnelRadiusSq freqHz D D : ℚ) : ℝ) = line) := by
  have h0 : fresnelRadiusSq freqHz D 0 = 0 := by
    simp [fresnelRadiusSq]
  have hD : fresnelRadiusSq freqHz D D = 0 := by
    simp [fresnelRadiusSq]
  have s0 : Real.sqrt ((fresnelRadiusSq freqHz D 0 : ℚ) : ℝ) = 0 := by
    rw [h0]; simp
  have sD : Real.sqrt ((fresnelRadiusSq freqHz D D : ℚ) : ℝ) = 0 := by
    rw [hD]; simp
  exact ⟨rfl, s0, sD, fun line => by rw [s0, sD]; constructor <;> ring⟩

/-- C4: statistical aggregation divides bin keys by 10, takes the
count-weighted mean and count-weighted variance; the histogram
`{-850: 5, -800: 5}` yields mean −82.5 dBm, variance 6.25 and standard
deviation 2.5, and any single-bin histogram has variance exactly 0. -/
theorem c4_weighted_statistics :
    rssiMean [(-850, 5), (-800, 5)] = -82.5 ∧
    rssiVariance [(-850, 5), (-800, 5)] = 6.25 ∧
    Real.sqrt ((rssiVariance [(-850, 5), (-800, 5)] : ℚ) : ℝ) = 2.5 ∧
    (∀ (k c : Int), rssiVariance [(k, c)] = 0) := by
  have h2 : rssiVariance [(-850, 5), (-800, 5)] = 6.25 := by
    with_unfolding_all rfl
  refine ⟨by with_unfolding_all rfl, h2, ?_, ?_⟩
  · rw [h2]
    have hcast : ((6.25 : ℚ) : ℝ) = 2.5 ^ 2 := by norm_num
    rw [hcast, Real.sqrt_sq (by norm_num)]
  · intro k c
    unfold rssiVariance rssiMean histBins histCounts
    simp only [List.map_cons, List.map_nil, List.zipWith_cons_cons,
      List.zipWith_nil_right, List.sum_cons, List.sum_nil]
    rcases eq_or_ne (c : ℚ) 0 with hc | hc
    · simp [hc]
    · have hmean : ((k : ℚ) / 10 * (c : ℚ) + 0) / ((c : ℚ) + 0) = (k : ℚ) / 10 := by
        field_simp
        ring
      rw [hmean]
      simp

/-- C3: at a row whose candidate neighborhood ring is empty, the code
does not raise a handled `GeometryError`: `max()` over the empty
neighborhood raises an uncaught `ValueError` (modelled as
`RowOutcome.abort`), which escapes `compute_residuals` and destroys the
whole batch — the sibling rows that would have produced results are
lost, contradicting skip-and-continue. -/
theorem c3_empty_ring_aborts_batch :
    processRow exElev exParams exEmptyRingRow = RowOutcome.abort ∧
    computeResiduals exElev exParams [exEmptyRingRow, exRow] = none ∧
    computeResiduals exElev exParams [exRow] = some [exResult] := by
  refine ⟨?_, ?_, ?_⟩ <;> with_unfolding_all rfl

/-- Evaluation of one `compute_residuals` iteration on a row whose
asserted pair is present, whose neighborhoods refine to `txLoc`/`rxLoc`,
whose validation passes, whose histogram has nonzero weight and whose
model loss is `L`: the outcome is the decision-rule conditional. -/
theorem processRow_eval (elev : ℚ × ℚ → ℚ) (p : Params) (row : Row)
    (pair : AssertedPair) (txLoc rxLoc : RefPoint) (L : ℚ)
    (hp : row.assertedPair = some pair)
    (htx : pyMaxBy (fun q => elev (q.lat, q.lon))
      (mkNeighborhood row.beaconerRing (clampHeight pair.beaconerElevation)) = some txLoc)
    (hrx : pyMaxBy (fun q => elev (q.lat, q.lon))
      (mkNeighborhood row.witnessRing (clampHeight pair.witnessElevation)) = some rxLoc)
    (hv : validateModelParameters txLoc rxLoc row.profileDistances
      pair.beaconerFreq pair.signalHist = none)
    (hL : row.itmLoss = some L)
    (hnz : totalWeight pair.signalHist ≠ 0) :
    processRow elev p row =
      if totalWeight pair.signalHist ≥ p.minSamples ∧
          residual (measuredLoss (rssiMean pair.signalHist) pair.beaconerGain
            pair.beaconerTxPower pair.witnessGain) L < p.thresholdDb ∧
          (row.profileDistances.getD []).getLast?.getD 0 / 1000 > p.minDistanceKm
      then RowOutcome.ok
        { beaconerPubkey := pyStripStr stripChars row.beaconer
          witnessPubkey := pyStripStr stripChars row.witness
          transmitPowerDBm := pair.beaconerTxPower
          frequencyHz := pair.beaconerFreq
          measuredRssi := rssiMean pair.signalHist
          measuredLoss := measuredLoss (rssiMean pair.signalHist) pair.beaconerGain
            pair.beaconerTxPower pair.witnessGain
          samples := totalWeight pair.signalHist
          stdDevSq := rssiVariance pair.signalHist
          itmLoss := L
          residual := residual (measuredLoss (rssiMean pair.signalHist) pair.beaconerGain
            pair.beaconerTxPower pair.witnessGain) L
          distanceKm := (row.profileDistances.getD []).getLast?.getD 0 / 1000
          terrainDistances := row.profileDistances.getD []
          txAntennaHeightM := txLoc.alt
          rxAntennaHeightM := rxLoc.alt
          txAntennaGainDB := pair.beaconerGain / 10
          rxAntennaGainDB := pair.witnessGain / 10
          edgeFlag := true }
      else RowOutcome.skip := by
  simp only [processRow, hp, htx, hrx, hv, hL]
  rw [if_neg hnz]

/-- C1: with validation passed and the model loss computed, a link is in
the result set (edge-flagged) iff total histogram weight ≥ `minSamples`,
residual < `thresholdDb`, and distance in km (last terrain-profile
distance / 1000) > `minDistanceKm`; if any condition fails the row
contributes nothing, and every produced row has `edgeFlag = true`. -/
theorem c1_edge_decision_rule (elev : ℚ × ℚ → ℚ) (p : Params) (row : Row)
    (pair : AssertedPair) (txLoc rxLoc : RefPoint) (L : ℚ)
    (hp : row.assertedPair = some pair)
    (htx : pyMaxBy (fun q => elev (q.lat, q.lon))
      (mkNeighborhood row.beaconerRing (clampHeight pair.beaconerElevation)) = some txLoc)
    (hrx : pyMaxBy (fun q => elev (q.lat, q.lon))
      (mkNeighborhood row.witnessRing (clampHeight pair.witnessElevation)) = some rxLoc)
    (hv : validateModelParameters txLoc rxLoc row.profileDistances
      pair.beaconerFreq pair.signalHist = none)
    (hL : row.itmLoss = some L)
    (hnz : totalWeight pair.signalHist ≠ 0) :
    ((∃ r, processRow elev p row = RowOutcome.ok r) ↔
      (totalWeight pair.signalHist ≥ p.minSamples ∧
       residual (measuredLoss (rssiMean pair.signalHist) pair.beaconerGain
         pair.beaconerTxPower pair.witnessGain) L < p.thresholdDb ∧
       (row.profileDistances.getD []).getLast?.getD 0 / 1000 > p.minDistanceKm)) ∧
    (∀ r, processRow elev p row = RowOutcome.ok r → r.edgeFlag = true) := by
  have hred := processRow_eval elev p row pair txLoc rxLoc L hp htx hrx hv hL hnz
  constructor
  · constructor
    · rintro ⟨r, hr⟩
      rw [hred] at hr
      by_cases hc : totalWeight pair.signalHist ≥ p.minSamples ∧
          residual (measuredLoss (rssiMean pair.signalHist) pair.beaconerGain
            pair.beaconerTxPower pair.witnessGain) L < p.thresholdDb ∧
          (row.profileDistances.getD []).getLast?.getD 0 / 1000 > p.minDistanceKm
      · exact hc
      · rw [if_neg hc] at hr
        exact absurd hr (by simp)
    · intro hc
      exact ⟨_, by rw [hred, if_pos hc]⟩
  · intro r hr
    rw [hred] at hr
    by_cases hc : totalWeight pair.signalHist ≥ p.minSamples ∧
        residual (measuredLoss (rssiMean pair.signalHist) pair.beaconerGain
          pair.beaconerTxPower pair.witnessGain) L < p.thresholdDb ∧
        (row.profileDistances.getD []).getLast?.getD 0 / 1000 > p.minDistanceKm
    · rw [if_pos hc] at hr
      cases hr
      rfl
    · rw [if_neg hc] at hr
      exact absurd hr (by simp)

theorem c1_witness :
    (totalWeight exHist ≥ exParams.minSamples ∧
     residual (measuredLoss (rssiMean exHist) exPair.beaconerGain
       exPair.beaconerTxPower exPair.witnessGain) 200 < exParams.thresholdDb ∧
     (exRow.profileDistances.getD []).getLast?.getD 0 / 1000 > exParams.minDistanceKm) ∧
    exResult.edgeFlag = true := by
  have hc : totalWeight exHist ≥ exParams.minSamples ∧
      residual (measuredLoss (rssiMean exHist) exPair.beaconerGain
        exPair.beaconerTxPower exPair.witnessGain) 200 < exParams.thresholdDb ∧
      (exRow.profileDistances.getD []).getLast?.getD 0 / 1000 > exParams.minDistanceKm :=
    of_decide_eq_true (by with_unfolding_all rfl)
  refine ⟨hc, ?_⟩
  exact (c1_edge_decision_rule exElev exParams exRow exPair exTxLoc exRxLoc 200
    rfl (by with_unfolding_all rfl) (by with_unfolding_all rfl)
    (by with_unfolding_all rfl) rfl
    (of_decide_eq_true (by with_unfolding_all rfl))).2 exResult
    (by with_unfolding_all rfl)

/-- C2: for every link that reaches residual computation and produces a
result row, the reported residual is exactly
`measuredLoss − modelLoss` with
`measuredLoss = −(rssiMean − witnessGain/10 − beaconerTxPower − beaconerGain/10)`
(gains converted from tenths of dB), with no other adjustment. -/
theorem c2_residual_exact (elev : ℚ × ℚ → ℚ) (p : Params) (row : Row)
    (pair : AssertedPair) (txLoc rxLoc : RefPoint) (L : ℚ)
    (hp : row.assertedPair = some pair)
    (htx : pyMaxBy (fun q => elev (q.lat, q.lon))
      (mkNeighborhood row.beaconerRing (clampHeight pair.beaconerElevation)) = some txLoc)
    (hrx : pyMaxBy (fun q => elev (q.lat, q.lon))
      (mkNeighborhood row.witnessRing (clampHeight pair.witnessElevation)) = some rxLoc)
    (hv : validateModelParameters txLoc rxLoc row.profileDistances
      pair.beaconerFreq pair.signalHist = none)
    (hL : row.itmLoss = some L)
    (hnz : totalWeight pair.signalHist ≠ 0) :
    ∀ r, processRow elev p row = RowOutcome.ok r →
      r.residual = -(rssiMean pair.signalHist - pair.witnessGain / 10 -
        pair.beaconerTxPower - pair.beaconerGain / 10) - L ∧
      r.measuredLoss = -(rssiMean pair.signalHist - pair.witnessGain / 10 -
        pair.beaconerTxPower - pair.beaconerGain / 10) := by
  have hred := processRow_eval elev p row pair txLoc rxLoc L hp htx hrx hv hL hnz
  intro r hr
  rw [hred] at hr
  by_cases hc : totalWeight pair.signalHist ≥ p.minSamples ∧
      residual (measuredLoss (rssiMean pair.signalHist) pair.beaconerGain
        pair.beaconerTxPower pair.witnessGain) L < p.thresholdDb ∧
      (row.profileDistances.getD []).getLast?.getD 0 / 1000 > p.minDistanceKm
  · rw [if_pos hc] at hr
    cases hr
    constructor
    · show residual (measuredLoss (rssiMean pair.signalHist) pair.beaconerGain
        pair.beaconerTxPower pair.witnessGain) L = _
      unfold residual measuredLoss
      ring
    · show measuredLoss (rssiMean pair.signalHist) pair.beaconerGain
        pair.beaconerTxPower pair.witnessGain = _
      unfold measuredLoss
      ring
  · rw [if_neg hc] at hr
    exact absurd hr (by simp)

theorem c2_witness :
    exResult.residual = -(rssiMean exHist - exPair.witnessGain / 10 -
      exPair.beaconerTxPower - exPair.beaconerGain / 10) - 200 :=
  (c2_residual_exact exElev exParams exRow exPair exTxLoc exRxLoc 200
    rfl (by with_unfolding_all rfl) (by with_unfolding_all rfl)
    (by with_unfolding_all rfl) rfl
    (of_decide_eq_true (by with_unfolding_all rfl))
    exResult (by with_unfolding_all rfl)).1

/-- A skipped row leaves the rest of the batch unchanged. -/
theorem computeResiduals_skip_middle (elev : ℚ × ℚ → ℚ) (p : Params) (row : Row)
    (h : processRow elev p row = RowOutcome.skip) (pre post : List Row) :
    computeResiduals elev p (pre ++ row :: post) =
      computeResiduals elev p (pre ++ post) := by
  induction pre with
  | nil => simp [computeResiduals, h]
  | cons r' pre ih =>
    simp only [List.cons_append, computeResiduals]
    cases hpr : processRow elev p r' <;> simp [ih]

/-- C8: a link whose signal histogram is empty or has zero total weight
is skipped (it produces no result row) while the rest of the batch
continues unchanged. -/
theorem c8_empty_histogram_skipped (elev : ℚ × ℚ → ℚ) (p : Params) (row : Row)
    (pair : AssertedPair) (txLoc rxLoc : RefPoint)
    (hp : row.assertedPair = some pair)
    (htx : pyMaxBy (fun q => elev (q.lat, q.lon))
      (mkNeighborhood row.beaconerRing (clampHeight pair.beaconerElevation)) = some txLoc)
    (hrx : pyMaxBy (fun q => elev (q.lat, q.lon))
      (mkNeighborhood row.witnessRing (clampHeight pair.witnessElevation)) = some rxLoc)
    (hh : pair.signalHist = [] ∨ totalWeight pair.signalHist = 0) :
    processRow elev p row = RowOutcome.skip ∧
    ∀ pre post, computeResiduals elev p (pre ++ row :: post) =
      computeResiduals elev p (pre ++ post) := by
  have hskip : processRow elev p row = RowOutcome.skip := by
    simp only [processRow, hp, htx, hrx]
    cases hval : validateModelParameters txLoc rxLoc row.profileDistances
        pair.beaconerFreq pair.signalHist with
    | some e => rfl
    | none =>
      rcases hh with hnil | hzero
      · exact absurd (hnil ▸ hval) (validate_nil_hist_ne_none txLoc rxLoc
          row.profileDistances pair.beaconerFreq)
      · rw [if_pos hzero]
  exact ⟨hskip, computeResiduals_skip_middle elev p row hskip⟩

theorem c8_witness :
    processRow exElev exParams exEmptyHistRow = RowOutcome.skip ∧
    computeResiduals exElev exParams ([exRow] ++ exEmptyHistRow :: [exRow]) =
      computeResiduals exElev exParams ([exRow] ++ [exRow]) := by
  have h := c8_empty_histogram_skipped exElev exParams exEmptyHistRow
    exPairEmptyHist exTxLoc exRxLoc rfl (by with_unfolding_all rfl)
    (by with_unfolding_all rfl) (Or.inl rfl)
  exact ⟨h.1, h.2 [exRow] [exRow]⟩

/-- The Python `max(..., key=f)` fold stays inside its input list. -/
theorem foldl_pymax_mem {α : Type} (f : α → ℚ) : ∀ (as : List α) (a : α),
    as.foldl (fun cur y => if f cur < f y then y else cur) a ∈ a :: as := by
  intro as
  induction as with
  | nil => intro a; simp
  | cons b bs ih =>
    intro a
    simp only [List.foldl_cons]
    rcases List.mem_cons.mp (ih (if f a < f b then b else a)) with h | h
    · rw [h]
      by_cases hab : f a < f b
      · simp [hab]
      · simp [hab]
    · exact List.mem_cons_of_mem _ (List.mem_cons_of_mem _ h)

/-- The function `pyMaxBy` returns an element of its input list. -/
theorem pyMaxBy_mem {α : Type} (f : α → ℚ) (l : List α) (x : α)
    (h : pyMaxBy f l = some x) : x ∈ l := by
  cases l with
  | nil => simp [pyMaxBy] at h
  | cons a as =>
    simp only [pyMaxBy, Option.some.injEq] at h
    rw [← h]
    exact foldl_pymax_mem f as a

/-- Heights from `validateModelParameters` inputs within `[0, 50]` never
trigger the height branch. -/
theorem validate_ne_badHeight (txLoc rxLoc : RefPoint)
    (h1 : 0 ≤ txLoc.alt) (h2 : txLoc.alt ≤ 50)
    (h3 : 0 ≤ rxLoc.alt) (h4 : rxLoc.alt ≤ 50)
    (prof : Option (List ℚ)) (f : ℚ) (hist : List (Int × Int)) :
    validateModelParameters txLoc rxLoc prof f hist ≠
      some ValidationError.badHeight := by
  intro hcontra
  unfold validateModelParameters at hcontra
  split_ifs at hcontra <;> simp_all <;>
    rcases ‹_ ∨ _› with h | h <;> linarith

/-- C9: antenna heights are clamped to `[1, 50]` before refinement,
every candidate refined point carries exactly the clamped height, and
therefore the height-validation branch (height below 0 or above 50) is
unreachable for refined locations, whatever the input elevations. -/
theorem c9_height_check_unreachable :
    (∀ e : ℚ, 1 ≤ clampHeight e ∧ clampHeight e ≤ 50) ∧
    (∀ (ring : List (ℚ × ℚ)) (h : ℚ) (q : RefPoint),
      q ∈ mkNeighborhood ring h → q.alt = h) ∧
    (∀ (elev : ℚ × ℚ → ℚ) (ringT ringR : List (ℚ × ℚ)) (eT eR : ℚ)
       (prof : Option (List ℚ)) (f : ℚ) (hist : List (Int × Int))
       (txLoc rxLoc : RefPoint),
      pyMaxBy (fun q => elev (q.lat, q.lon))
        (mkNeighborhood ringT (clampHeight eT)) = some txLoc →
      pyMaxBy (fun q => elev (q.lat, q.lon))
        (mkNeighborhood ringR (clampHeight eR)) = some rxLoc →
      validateModelParameters txLoc rxLoc prof f hist ≠
        some ValidationError.badHeight) := by
  have hclamp : ∀ e : ℚ, 1 ≤ clampHeight e ∧ clampHeight e ≤ 50 := by
    intro e
    unfold clampHeight
    constructor
    · exact le_min (le_max_right e 1) (by norm_num)
    · exact min_le_right _ _
  have hnbhd : ∀ (ring : List (ℚ × ℚ)) (h : ℚ) (q : RefPoint),
      q ∈ mkNeighborhood ring h → q.alt = h := by
    intro ring h q hq
    unfold mkNeighborhood at hq
    obtain ⟨c, _, rfl⟩ := List.mem_map.mp hq
    rfl
  refine ⟨hclamp, hnbhd, ?_⟩
  intro elev ringT ringR eT eR prof f hist txLoc rxLoc htx hrx
  have htxAlt : txLoc.alt = clampHeight eT :=
    hnbhd _ _ _ (pyMaxBy_mem _ _ _ htx)
  have hrxAlt : rxLoc.alt = clampHeight eR :=
    hnbhd _ _ _ (pyMaxBy_mem _ _ _ hrx)
  exact validate_ne_badHeight txLoc rxLoc
    (htxAlt ▸ le_trans (by norm_num) (hclamp eT).1)
    (htxAlt ▸ (hclamp eT).2)
    (hrxAlt ▸ le_trans (by norm_num) (hclamp eR).1)
    (hrxAlt ▸ (hclamp eR).2)
    prof f hist

theorem c9_witness :
    validateModelParameters ⟨45, -75, 50⟩ ⟨46, -74, 1⟩ (some [0, 2500, 5000])
      900000000 [(-850, 20)] ≠ some ValidationError.badHeight :=
  c9_height_check_unreachable.2.2 (fun _ => 0) [(45, -75)] [(46, -74)] 100 (-5)
    (some [0, 2500, 5000]) 900000000 [(-850, 20)] ⟨45, -75, 50⟩ ⟨46, -74, 1⟩
    (by with_unfolding_all rfl) (by with_unfolding_all rfl)

/-- In a residual-sorted list, the first hit of a witness predicate has
minimal residual among all elements carrying that witness. -/
theorem find?_sorted_min (w : String) (r : ClassificationResult) :
    ∀ (l : List ClassificationResult), l.Sorted residualLE →
      l.find? (fun x => x.witnessPubkey == w) = some r →
      ∀ r' ∈ l, r'.witnessPubkey = w → r.residual ≤ r'.residual := by
  intro l
  induction l with
  | nil => intro _ h; simp at h
  | cons x xs ih =>
    intro hs hf r' hr' hw
    by_cases hx : (x.witnessPubkey == w) = true
    · rw [@List.find?_cons_of_pos _ (fun x => x.witnessPubkey == w) x xs hx] at hf
      have hrx : r = x := (Option.some.injEq _ _).mp hf.symm
      rcases List.mem_cons.mp hr' with rfl | hmem
      · exact hrx ▸ le_refl _
      · exact hrx ▸ (List.sorted_cons.mp hs).1 r' hmem
    · rw [@List.find?_cons_of_neg _ (fun x => x.witnessPubkey == w) x xs hx] at hf
      rcases List.mem_cons.mp hr' with rfl | hmem
      · exact absurd (beq_iff_eq.mpr hw) hx
      · exact ih (List.sorted_cons.mp hs).2 hf r' hmem hw

/-- C6: the batch selector keeps exactly one edge-flagged result per
witness, namely one with the minimum (most negative) residual among all
edge-flagged results sharing that witness; and whenever some edge-flagged
result for the witness exists, one is selected. -/
theorem c6_worst_edge_per_witness (results : List ClassificationResult)
    (w : String) :
    (∀ r, worstEdgeFor results w = some r →
      r.edgeFlag = true ∧ r.witnessPubkey = w ∧
      ∀ r' ∈ results, r'.edgeFlag = true → r'.witnessPubkey = w →
        r.residual ≤ r'.residual) ∧
    ((∃ r' ∈ results, r'.edgeFlag = true ∧ r'.witnessPubkey = w) →
      ∃ r, worstEdgeFor results w = some r) := by
  constructor
  · intro r hr
    unfold worstEdgeFor at hr
    have hsorted : (List.insertionSort residualLE
        (results.filter (fun r => r.edgeFlag))).Sorted residualLE :=
      List.sorted_insertionSort residualLE _
    have hmem : r ∈ List.insertionSort residualLE
        (results.filter (fun r => r.edgeFlag)) :=
      List.mem_of_find?_eq_some hr
    have hpred := List.find?_some hr
    have hw : r.witnessPubkey = w := beq_iff_eq.mp hpred
    have hfil : r ∈ results.filter (fun r => r.edgeFlag) :=
      (List.mem_insertionSort residualLE).mp hmem
    have hsplit := List.mem_filter.mp hfil
    refine ⟨hsplit.2, hw, ?_⟩
    intro r' hr' he hw'
    have hmem' : r' ∈ List.insertionSort residualLE
        (results.filter (fun r => r.edgeFlag)) :=
      (List.mem_insertionSort residualLE).mpr (List.mem_filter.mpr ⟨hr', he⟩)
    exact find?_sorted_min w r _ hsorted hr r' hmem' hw'
  · rintro ⟨r', hr', he, hw⟩
    unfold worstEdgeFor
    have hmem' : r' ∈ List.insertionSort residualLE
        (results.filter (fun r => r.edgeFlag)) :=
      (List.mem_insertionSort residualLE).mpr (List.mem_filter.mpr ⟨hr', he⟩)
    have : (List.insertionSort residualLE
        (results.filter (fun r => r.edgeFlag))).find?
          (fun r => r.witnessPubkey == w) |>.isSome :=
      List.find?_isSome.mpr ⟨r', hmem', beq_iff_eq.mpr hw⟩
    exact Option.isSome_iff_exists.mp this

theorem c6_witness :
    worstEdgeFor [exResA, exResB] "w1" = some exResB ∧
    exResB.residual ≤ exResA.residual := by
  have h := (c6_worst_edge_per_witness [exResA, exResB] "w1").1 exResB
    (by with_unfolding_all rfl)
  exact ⟨by with_unfolding_all rfl,
    h.2.2 exResA (List.mem_cons_self _ _) (by with_unfolding_all rfl)
      (by with_unfolding_all rfl)⟩

/-- The whole `"hotspots/"` document prefix is absorbed by the leading
strip, so stripping the document id is the same as stripping the bare
pubkey with the same character set. -/
theorem reportedId_eq (pk : String) :
    reportedId pk = pyStripStr stripChars pk := by
  unfold reportedId pyStripStr pyStrip
  rw [show (String.append "hotspots/" pk).toList = "hotspots/".toList ++ pk.toList
    from rfl]
  rw [List.dropWhile_append_of_pos (by decide)]

/-- Stripping strictly shortens a nonempty list whose first or last
character belongs to the strip set. -/
theorem pyStrip_length_lt (bad l : List Char) (hne : l ≠ [])
    (hb : (∃ c, l.head? = some c ∧ bad.contains c = true) ∨
          (∃ c, l.getLast? = some c ∧ bad.contains c = true)) :
    (pyStrip bad l).length < l.length := by
  set p : Char → Bool := fun c => bad.contains c with hp
  rcases hb with ⟨c, hc, hbc⟩ | ⟨c, hc, hbc⟩
  · cases l with
    | nil => exact absurd rfl hne
    | cons a t =>
      have hca : a = c := by simpa using hc
      unfold pyStrip
      rw [List.length_reverse]
      calc (((a :: t).dropWhile p).reverse.dropWhile p).length
          ≤ ((a :: t).dropWhile p).reverse.length :=
            (List.dropWhile_suffix p).sublist.length_le
        _ = ((a :: t).dropWhile p).length := List.length_reverse _
        _ = (t.dropWhile p).length := by
            rw [List.dropWhile_cons_of_pos (by rw [hca]; exact hbc)]
        _ ≤ t.length := (List.dropWhile_suffix p).sublist.length_le
        _ < (a :: t).length := by simp
  · by_cases hq : l.dropWhile p = []
    · unfold pyStrip
      rw [hq]
      simpa using List.length_pos.mpr hne
    · obtain ⟨s, hs⟩ := List.dropWhile_suffix (l := l) p
      have hlast : (l.dropWhile p).getLast? = l.getLast? := by
        conv_rhs => rw [← hs]
        exact (List.getLast?_append_of_ne_nil s hq).symm
      have hrevhead : (l.dropWhile p).reverse.head? = some c := by
        rw [List.head?_reverse, hlast, hc]
      cases hrev : (l.dropWhile p).reverse with
      | nil =>
        rw [hrev] at hrevhead
        exact absurd hrevhead (by simp)
      | cons a rr =>
        have hca : a = c := by
          rw [hrev] at hrevhead
          simpa using hrevhead
        unfold pyStrip
        rw [List.length_reverse, hrev,
          List.dropWhile_cons_of_pos (by rw [hca]; exact hbc)]
        calc (rr.dropWhile p).length
            ≤ rr.length := (List.dropWhile_suffix p).sublist.length_le
          _ < (a :: rr).length := by simp
          _ = (l.dropWhile p).reverse.length := by rw [hrev]
          _ = (l.dropWhile p).length := List.length_reverse _
          _ ≤ l.length := (List.dropWhile_suffix p).sublist.length_le

/-- C10: reported identifiers come from Python `str.strip("hotspots/")`
on the document id, which removes every leading and trailing character of
the set `h o t s p /` — not just the literal prefix — so any pubkey whose
first or last character lies in that set is reported differently from
itself. -/
theorem c10_strip_set_semantics :
    (∀ pk : String, reportedId pk = pyStripStr stripChars pk) ∧
    (∀ pk : String, pk.toList ≠ [] →
      ((∃ c, pk.toList.head? = some c ∧ stripChars.toList.contains c = true) ∨
       (∃ c, pk.toList.getLast? = some c ∧ stripChars.toList.contains c = true)) →
      reportedId pk ≠ pk) := by
  refine ⟨reportedId_eq, ?_⟩
  intro pk hne hb heq
  have hlt := pyStrip_length_lt stripChars.toList pk.toList hne hb
  have hrepr : reportedId pk = String.mk (pyStrip stripChars.toList pk.toList) := by
    rw [reportedId_eq pk]; rfl
  rw [hrepr] at heq
  have hdata := congrArg String.data heq
  have hlen := congrArg List.length hdata
  exact Nat.lt_irrefl _ (hlen ▸ hlt)

theorem c10_witness : reportedId "he11o" ≠ "he11o" :=
  c10_strip_set_semantics.2 "he11o" (by decide)
    (Or.inl ⟨'h', by decide, by decide⟩)

end HeliumItm
